import Mathlib

/-!
Verification of the filtering, grouping, rendering and reconciliation core of
the ink-tableau-publipostage-grist repository, as a shallow embedding in Lean.

The embedding models the scalar cell values that flow through the pipeline
(null / integer / string), pandas DataFrames as a column list plus a row list,
and translates the source functions of grist_client.py, pdf_generator.py and
app.py into executable Lean definitions.  Library calls whose behaviour the
source relies on (Python str.replace, pandas astype(str), Series comparisons,
unit-s timestamp conversion) are modelled by their documented semantics; the
two open-ended pandas generic date parsers and the regular-expression engine
behind str.contains are abstracted as parameters, with pattern rejection
(re.error) modelled as the engine returning none.
-/

namespace Publipostage

/-- A scalar cell value: missing (NaN/None), an integer, or a string.
These are the value shapes the claims exercise; floats, booleans and
Grist list cells are outside this model. -/
inductive Value where
  | vnull
  | vint (n : Int)
  | vstr (s : String)
deriving DecidableEq, Repr

/-- Models pandas astype(str) on a cell: a missing cell (NaN) stringifies
to "nan"; used by the non-date filter operators of _create_filter_mask. -/
def pyStr : Value → String
  | .vnull => "nan"
  | .vint n => toString n
  | .vstr s => s

/-- Models plain Python str() on a raw field value (app.py comparisons):
None stringifies to "None". -/
def pyStrScalar : Value → String
  | .vnull => "None"
  | .vint n => toString n
  | .vstr s => s

/-- Models the Python / pandas elementwise == used on object columns:
NaN compares unequal to everything (including itself), an int never
equals a string. -/
def valueEq : Value → Value → Bool
  | .vint a, .vint b => a == b
  | .vstr a, .vstr b => a == b
  | _, _ => false

/-- One record row: a field map from column identifier to value. -/
abbrev Row := List (String × Value)

/-- Cell access with DataFrame alignment: a key missing from the row is NaN. -/
def getCell (r : Row) (c : String) : Value :=
  match r.lookup c with
  | some v => v
  | none => .vnull

/-- A pandas DataFrame: its column index and its rows. -/
structure DF where
  cols : List String
  rows : List Row
deriving DecidableEq, Repr

/-- Models df.empty: true when either axis has length zero. -/
def DF.pdEmpty (df : DF) : Bool := df.rows.isEmpty || df.cols.isEmpty

/-- Append a key to the column index if it is not already present. -/
def insertNewCol (acc : List String) (k : String) : List String :=
  if acc.contains k then acc else acc ++ [k]

/-- Column index of a DataFrame built from a record list: the union of the
field keys in first-appearance order. -/
def unionKeys (records : List Row) : List String :=
  records.foldl (fun acc r => r.foldl (fun a kv => insertNewCol a kv.1) acc) []

/-- Models pd.DataFrame(list-of-dicts). -/
def mkDF (records : List Row) : DF :=
  { cols := unionKeys records, rows := records }

/-! ### Calendar dates -/

/-- A calendar date (what .dt.date / strftime %d/%m/%Y observe). -/
structure Date where
  year : Int
  month : Int
  day : Int
deriving DecidableEq, Repr

/-- Civil-from-days: the calendar date that lies z days after 1970-01-01.
Standard proleptic-Gregorian conversion with floor division, matching the
pandas datetime64 calendar. -/
def civilFromDays (z0 : Int) : Date :=
  let z := z0 + 719468
  let era : Int := Int.ediv z 146097
  let doe : Int := z - era * 146097
  let yoe : Int :=
    Int.ediv (doe - Int.ediv doe 1460 + Int.ediv doe 36524 - Int.ediv doe 146096) 365
  let y : Int := yoe + era * 400
  let doy : Int := doe - (365 * yoe + Int.ediv yoe 4 - Int.ediv yoe 100)
  let mp : Int := Int.ediv (5 * doy + 2) 153
  let d : Int := doy - Int.ediv (153 * mp + 2) 5 + 1
  let m : Int := mp + (if mp < 10 then 3 else -9)
  { year := y + (if m ≤ 2 then 1 else 0), month := m, day := d }

/-- Calendar date of a Unix timestamp in seconds
(pd.to_datetime(n, unit='s') observed at date granularity). -/
def dateOfUnixSeconds (n : Int) : Date :=
  civilFromDays (Int.ediv n 86400)

/-- Calendar date of a bare integer passed to pd.to_datetime without a unit,
which pandas reads as nanoseconds since the epoch. -/
def dateOfUnixNanoseconds (n : Int) : Date :=
  civilFromDays (Int.ediv (Int.ediv n 1000000000) 86400)

/-- Strict ordering on calendar dates (year, then month, then day). -/
def dateLt (a b : Date) : Bool :=
  decide (a.year < b.year) ||
    (a.year == b.year &&
      (decide (a.month < b.month) || (a.month == b.month && decide (a.day < b.day))))

/-- Left-pad the decimal digits of a nonnegative quantity to width 2. -/
def pad2 (n : Int) : String :=
  let s := toString n.natAbs
  if s.length < 2 then "0" ++ s else s

/-- Left-pad the decimal digits of a nonnegative quantity to width 4. -/
def pad4 (n : Int) : String :=
  let s := toString n.natAbs
  if s.length ≥ 4 then s
  else String.mk (List.replicate (4 - s.length) '0') ++ s

/-- strftime with format %d/%m/%Y. -/
def formatDDMMYYYY (d : Date) : String :=
  pad2 d.day ++ "/" ++ pad2 d.month ++ "/" ++ pad4 d.year

/-! ### Number and date parsing -/

/-- Numeric value of a decimal digit character. -/
def digitVal (c : Char) : Nat := c.toNat - 48

/-- Decimal number denoted by a digit list. -/
def natOfDigits (cs : List Char) : Nat :=
  cs.foldl (fun a c => a * 10 + digitVal c) 0

/-- Split a character list on a separator character (like str.split(sep)). -/
def splitOnChar (sep : Char) : List Char → List (List Char)
  | [] => [[]]
  | c :: rest =>
    let r := splitOnChar sep rest
    if c = sep then [] :: r
    else
      match r with
      | [] => [[c]]
      | h :: t => (c :: h) :: t

/-- A run of minLen to maxLen decimal digits, as strptime field regexes demand. -/
def parseDigitField (minLen maxLen : Nat) (cs : List Char) : Option Nat :=
  if minLen ≤ cs.length ∧ cs.length ≤ maxLen ∧ cs.all Char.isDigit then
    some (natOfDigits cs)
  else none

/-- Gregorian leap-year test. -/
def isLeapYear (y : Int) : Bool :=
  (Int.emod y 4 == 0 && !(Int.emod y 100 == 0)) || Int.emod y 400 == 0

/-- Number of days in a month. -/
def daysInMonth (y m : Int) : Int :=
  if m == 2 then (if isLeapYear y then 29 else 28)
  else if m == 4 || m == 6 || m == 9 || m == 11 then 30
  else 31

/-- Build a date, rejecting out-of-range month/day combinations as strptime does. -/
def mkValidDate (y m d : Int) : Option Date :=
  if 1 ≤ m ∧ m ≤ 12 ∧ 1 ≤ d ∧ d ≤ daysInMonth y m then some { year := y, month := m, day := d }
  else none

/-- Exactly three chunks around a separator. -/
def split3 (sep : Char) (s : String) : Option (List Char × List Char × List Char) :=
  match splitOnChar sep s.data with
  | [a, b, c] => some (a, b, c)
  | _ => none

/-- strptime day/month/4-digit-year with the given separator (%d_%m_%Y). -/
def tryDMY4 (sep : Char) (s : String) : Option Date := do
  let (a, b, c) ← split3 sep s
  let d ← parseDigitField 1 2 a
  let m ← parseDigitField 1 2 b
  let y ← parseDigitField 4 4 c
  mkValidDate (Int.ofNat y) (Int.ofNat m) (Int.ofNat d)

/-- strptime 4-digit-year/month/day with the given separator (%Y_%m_%d). -/
def tryYMD4 (sep : Char) (s : String) : Option Date := do
  let (a, b, c) ← split3 sep s
  let y ← parseDigitField 4 4 a
  let m ← parseDigitField 1 2 b
  let d ← parseDigitField 1 2 c
  mkValidDate (Int.ofNat y) (Int.ofNat m) (Int.ofNat d)

/-- strptime day/month/2-digit-year (%d_%m_%y): 00-68 map to 2000+, 69-99 to 1900+. -/
def tryDMY2 (sep : Char) (s : String) : Option Date := do
  let (a, b, c) ← split3 sep s
  let d ← parseDigitField 1 2 a
  let m ← parseDigitField 1 2 b
  let y2 ← parseDigitField 2 2 c
  let y : Int := if y2 ≤ 68 then Int.ofNat (2000 + y2) else Int.ofNat (1900 + y2)
  mkValidDate y (Int.ofNat m) (Int.ofNat d)

/-- GristClient._parse_date_filter: tries the formats %d/%m/%Y, %d-%m-%Y,
%Y-%m-%d, %d/%m/%y, %d.%m.%Y in order, then falls back to the pandas generic
dayfirst parser, which is abstracted as the parameter g; a none result models
the ValueError the source raises when everything fails. -/
def parse_date_filter (g : String → Option Date) (s : String) : Option Date :=
  (tryDMY4 '/' s).orElse fun _ =>
  (tryDMY4 '-' s).orElse fun _ =>
  (tryYMD4 '-' s).orElse fun _ =>
  (tryDMY2 '/' s).orElse fun _ =>
  (tryDMY4 '.' s).orElse fun _ =>
  g s

/-- Unsigned decimal literal (digits with an optional fractional part). -/
def parseUnsignedDec (cs : List Char) : Option ℚ :=
  match splitOnChar '.' cs with
  | [a] =>
    if a ≠ [] ∧ a.all Char.isDigit then some ((natOfDigits a : ℚ)) else none
  | [a, b] =>
    if (a ++ b) ≠ [] ∧ (a ++ b).all Char.isDigit then
      some ((natOfDigits a : ℚ) + (natOfDigits b : ℚ) / ((10 : ℚ) ^ b.length))
    else none
  | _ => none

/-- Models Python float(str) / pandas numeric coercion of a string, for the
plain decimal forms the application exchanges (sign, digits, optional dot). -/
def parseDecimal (s : String) : Option ℚ :=
  match s.data with
  | '-' :: rest => (parseUnsignedDec rest).map (fun q => -q)
  | '+' :: rest => parseUnsignedDec rest
  | cs => parseUnsignedDec cs

/-- pd.to_numeric(column, errors='coerce') on one cell. -/
def toNumeric : Value → Option ℚ
  | .vint n => some ((n : ℚ))
  | .vstr s => parseDecimal s
  | .vnull => none

/-- GristClient._convert_timestamp_to_datetime observed at date granularity:
pd.to_datetime(column, unit='s', errors='coerce') turns numbers (and numeric
strings) into instants that many seconds after the epoch and everything else
into NaT (none). -/
def toPandasDate : Value → Option Date
  | .vint n => some (dateOfUnixSeconds n)
  | .vstr s => (parseDecimal s).map (fun q => civilFromDays (Int.ediv q.floor 86400))
  | .vnull => none

/-! ### Filter evaluator (grist_client.apply_advanced_filters) -/

/-- ASCII lower-casing of one character (Python str.lower on the ASCII
range, which is what the case-insensitive flag of str.contains applies to
the values this application exchanges). -/
def pyLowerChar (c : Char) : Char :=
  if 65 ≤ c.toNat ∧ c.toNat ≤ 90 then Char.ofNat (c.toNat + 32) else c

/-- ASCII lower-casing of a string. -/
def pyLower (s : String) : String := String.mk (s.data.map pyLowerChar)

/-- Substring occurrence test (Python in / re.search on a literal pattern):
true when pat occurs contiguously in the list. -/
def listIsInfixOf (pat : List Char) : List Char → Bool
  | [] => pat.isEmpty
  | c :: rest => pat.isPrefixOf (c :: rest) || listIsInfixOf pat rest

/-- GristClient.is_date_column: looks the column up in the cached type map
(modelled as an association list), defaulting to Text, and tests for
Date / DateTime. -/
def is_date_column (types : List (String × String)) (column : String) : Bool :=
  let t := (types.lookup column).getD "Text"
  t == "Date" || t == "DateTime"

/-- The per-row boolean test of GristClient._create_filter_mask.  The source
builds each mask with vectorized pandas operations that act elementwise, so
the mask is the row-wise map of this test.  Failure paths are translated
exactly: a date value that no format parses, an unsupported operator (on a
date column or otherwise) and a non-numeric bound for greater_than/less_than
all yield an all-True mask via the constant-true branches below.  The
contains operator hands the raw value to str.contains(value, case=False),
i.e. a regular-expression search with the case-insensitive flag: the engine
re.compile(value, re.IGNORECASE).search is abstracted as the parameter rex,
where rex value = none models a pattern the engine rejects (re.error) — in
that case the mask builder raises before any row is tested (see
create_filter_mask) and the false returned below is never reached. -/
def rowMatch (g : String → Option Date) (rex : String → Option (String → Bool))
    (types : List (String × String))
    (column operator value : String) (r : Row) : Bool :=
  if is_date_column types column then
    match parse_date_filter g value with
    | none => true
    | some fd =>
      let cellD := toPandasDate (getCell r column)
      if operator == "equals" then
        match cellD with
        | some c => decide (c = fd)
        | none => false
      else if operator == "not_equals" then
        match cellD with
        | some c => decide (c ≠ fd)
        | none => true
      else if operator == "greater_than" then
        match cellD with
        | some c => dateLt fd c
        | none => false
      else if operator == "less_than" then
        match cellD with
        | some c => dateLt c fd
        | none => false
      else true
  else
    let cs := pyStr (getCell r column)
    if operator == "equals" then cs == value
    else if operator == "contains" then
      match rex value with
      | some f => f cs
      | none => false
    else if operator == "starts_with" then
      List.isPrefixOf value.data cs.data
    else if operator == "ends_with" then
      List.isSuffixOf value.data cs.data
    else if operator == "not_equals" then !(cs == value)
    else if operator == "greater_than" then
      match parseDecimal value with
      | none => true
      | some q =>
        match toNumeric (getCell r column) with
        | some x => decide (q < x)
        | none => false
    else if operator == "less_than" then
      match parseDecimal value with
      | none => true
      | some q =>
        match toNumeric (getCell r column) with
        | some x => decide (x < q)
        | none => false
    else true

/-- The one modelled raising path of the mask builder: a contains predicate
on a non-date column whose value the regular-expression engine rejects
(re.error from str.contains).  Every other failure inside
_create_filter_mask is caught there and degrades to a mask. -/
def maskFails (rex : String → Option (String → Bool))
    (types : List (String × String)) (column operator value : String) : Bool :=
  !(is_date_column types column) && (operator == "contains") && (rex value).isNone

/-- GristClient._create_filter_mask: a boolean mask over the rows of df, or
none when building the mask raises (an invalid contains pattern), in which
case the callers' try/except skips the predicate. -/
def create_filter_mask (g : String → Option Date)
    (rex : String → Option (String → Bool)) (df : DF)
    (column operator value : String) (types : List (String × String)) :
    Option (List Bool) :=
  if maskFails rex types column operator value then none
  else some (df.rows.map (rowMatch g rex types column operator value))

/-- One entry of the filters list: {column, operator, value}.  The value is
optional to model an absent key (dict.get returning None). -/
structure FilterConfig where
  column : String
  operator : String
  value : Option String
deriving DecidableEq, Repr

/-- The two skip tests apply_advanced_filters runs before building a mask:
missing column/operator, None or empty value, or a column absent from the
frame being filtered. -/
def skipFilter (cols : List String) (f : FilterConfig) : Bool :=
  f.column == "" || f.operator == "" || f.value == none || f.value == some "" ||
    !(cols.contains f.column)

/-- df[mask]: keep the rows whose mask entry is true. -/
def applyMask (rows : List Row) (mask : List Bool) : List Row :=
  (rows.zip mask).filterMap (fun rb => if rb.2 then some rb.1 else none)

/-- One iteration of the AND-mode loop: skip the predicate, or narrow the
current row set by its mask (built against the current filtered frame); when
building the mask raises, the except/continue leaves the rows unchanged. -/
def andStep (g : String → Option Date) (rex : String → Option (String → Bool))
    (types : List (String × String))
    (cols : List String) (rows : List Row) (f : FilterConfig) : List Row :=
  if skipFilter cols f then rows
  else
    match create_filter_mask g rex { cols := cols, rows := rows }
        f.column f.operator (f.value.getD "") types with
    | none => rows
    | some mask => applyMask rows mask

/-- AND mode: sequential application of the predicates.  Filtering never
drops columns, so the skip test sees the original column index. -/
def applyAndMode (g : String → Option Date) (rex : String → Option (String → Bool))
    (df : DF) (fs : List FilterConfig)
    (types : List (String × String)) : DF :=
  { cols := df.cols, rows := fs.foldl (andStep g rex types df.cols) df.rows }

/-- OR mode: evaluate every non-skipped predicate against the original frame
(a predicate whose mask raises is skipped by the except/continue and appends
nothing), fold the masks with logical OR, and keep the rows of the combined
mask; with no usable mask the frame is returned unchanged. -/
def applyOrMode (g : String → Option Date) (rex : String → Option (String → Bool))
    (df : DF) (fs : List FilterConfig)
    (types : List (String × String)) : DF :=
  let all_masks := fs.filterMap (fun f =>
    if skipFilter df.cols f then none
    else create_filter_mask g rex df f.column f.operator (f.value.getD "") types)
  match all_masks with
  | [] => df
  | m :: ms =>
    let combined := ms.foldl (fun acc mk => acc.zipWith (fun a b => a || b) mk) m
    { cols := df.cols, rows := applyMask df.rows combined }

/-- The two accepted payload shapes: the legacy bare list of filters, or the
dict {mode, filters}. -/
inductive FiltersData where
  | legacy (filters : List FilterConfig)
  | withMode (mode : String) (filters : List FilterConfig)
deriving DecidableEq, Repr

/-- GristClient.apply_advanced_filters.  An empty payload or an empty frame is
returned unchanged; the legacy list shape runs in AND mode; an unknown mode
string recurses with mode and, which lands in the AND branch. -/
def apply_advanced_filters (g : String → Option Date)
    (rex : String → Option (String → Bool)) (df : DF)
    (filters_data : FiltersData) (types : List (String × String)) : DF :=
  if (match filters_data with
      | .legacy fs => fs.isEmpty
      | .withMode _ _ => false) || df.pdEmpty then df
  else
    match filters_data with
    | .legacy fs =>
      if fs.isEmpty then df else applyAndMode g rex df fs types
    | .withMode mode fs =>
      if fs.isEmpty then df
      else if mode == "and" then applyAndMode g rex df fs types
      else if mode == "or" then applyOrMode g rex df fs types
      else applyAndMode g rex df fs types

/-! ### Grouping engine (grist_client.filter_data_by_column) -/

/-- First-appearance deduplication under a boolean equivalence, as
pandas Series.unique produces it. -/
def dedupByAux {α : Type} (eqf : α → α → Bool) (seen : List α) : List α → List α
  | [] => []
  | v :: rest =>
    if seen.any (eqf v) then dedupByAux eqf seen rest
    else v :: dedupByAux eqf (seen ++ [v]) rest

/-- Values of a list in first-appearance order, duplicates removed. -/
def dedupBy {α : Type} (eqf : α → α → Bool) (l : List α) : List α :=
  dedupByAux eqf [] l

/-- group_df restricted to one column in the caller order. -/
def projectRow (keep : List String) (r : Row) : Row :=
  keep.map (fun c => (c, getCell r c))

/-- The selected-columns step of filter_data_by_column: with a non-empty
selection keep exactly the selected columns that exist in the frame, in the
caller order; with an empty selection the group keeps every column. -/
def selectGroupColumns (dfCols : List String) (selected_columns : List String)
    (groupRows : List Row) : DF :=
  if selected_columns.isEmpty then { cols := dfCols, rows := groupRows }
  else
    let keep := selected_columns.filter (fun c => dfCols.contains c)
    { cols := keep, rows := groupRows.map (projectRow keep) }

/-- GristClient.filter_data_by_column: build the frame, fail on a missing
grouping column, then either bucket by the DD/MM/YYYY rendering of a date
column (rows that fail conversion join no group) or group the non-null raw
values of an ordinary column, keying each group by str(value). -/
def filter_data_by_column (data : List Row) (filter_column : String)
    (selected_columns : List String) (is_date_col : Bool) :
    Except String (List (String × DF)) :=
  let df := mkDF data
  if !(df.cols.contains filter_column) then
    .error "Colonne de filtrage non trouvee dans les donnees"
  else if is_date_col then
    let fmt := fun r => (toPandasDate (getCell r filter_column)).map formatDDMMYYYY
    .ok ((dedupBy (fun a b => a == b) (df.rows.filterMap fmt)).map (fun k =>
      (k, selectGroupColumns df.cols selected_columns
        (df.rows.filter (fun r => fmt r == some k)))))
  else
    .ok ((dedupBy valueEq
        ((df.rows.map (fun r => getCell r filter_column)).filter
          (fun v => !(v == Value.vnull)))).map (fun v =>
      (pyStrScalar v, selectGroupColumns df.cols selected_columns
        (df.rows.filter (fun r => valueEq (getCell r filter_column) v)))))

/-! ### Filename generation (pdf_generator.export_filtered_pdfs) -/

/-- Python str.replace for a nonempty pattern: one left-to-right pass,
replacing non-overlapping occurrences; the replacement text is not rescanned.
The fuel equals the input length, which each step consumes. -/
def pyReplaceAux (pat rep : List Char) : Nat → List Char → List Char
  | _, [] => []
  | 0, s => s
  | fuel + 1, c :: rest =>
    if pat.isPrefixOf (c :: rest) then
      rep ++ pyReplaceAux pat rep fuel (rest.drop (pat.length - 1))
    else c :: pyReplaceAux pat rep fuel rest

/-- Python str.replace(pat, rep) (for the nonempty patterns the source uses). -/
def pyReplace (s pat rep : String) : String :=
  if pat.data.isEmpty then s
  else { data := pyReplaceAux pat.data rep.data s.data.length s.data }

/-- Python str.endswith. -/
def pyEndsWith (s suffix : String) : Bool :=
  List.isSuffixOf suffix.data s.data

/-- The safe_filter_value step: path-unsafe characters of the group key are
replaced by underscores, in the order the source chains the replacements. -/
def safe_filter_value (fv : String) : String :=
  pyReplace (pyReplace (pyReplace fv "/" "_") "\\" "_") " " "_"

/-- The filename construction of export_filtered_pdfs: substitute the tokens
in the order of the replacements dict, run one collapse pass for "__" and
"--", and force a .pdf extension. -/
def build_filename (pattern fv timestamp date table_id : String) : String :=
  let f := pyReplace pattern "{filter_value}" (safe_filter_value fv)
  let f := pyReplace f "{timestamp}" timestamp
  let f := pyReplace f "{date}" date
  let f := pyReplace f "{table_name}" table_id
  let f := pyReplace f "{user}" "user"
  let f := pyReplace (pyReplace f "__" "_") "--" "-"
  if pyEndsWith f ".pdf" then f else f ++ ".pdf"

/-! ### Date formatter (pdf_generator.format_date_value) -/

/-- The largest whole-second count a pandas Timestamp can carry: timestamps
are int64 nanosecond counts, Timestamp.max is 2262-04-11T23:47:16.854775807,
and pd.to_datetime(n, unit='s') raises OutOfBoundsDatetime beyond it. -/
def maxTimestampSeconds : Int := 9223372036

/-- The smallest whole-second count a pandas Timestamp can carry
(Timestamp.min is 1677-09-21T00:12:43.145224193). -/
def minTimestampSeconds : Int := -9223372036

/-- The int64 nanosecond bound of pandas timestamps: pd.to_datetime on a bare
integer (read as nanoseconds) raises beyond it. -/
def maxTimestampNanoseconds : Int := 9223372036854775807

/-- The negative nanosecond bound (the int64 minimum is the NaT sentinel). -/
def minTimestampNanoseconds : Int := -9223372036854775807

/-- PDFGenerator.format_date_value.  A missing value renders empty; a number
strictly inside the Unix-seconds plausibility window (1e9, 1e10) is read as
seconds since the epoch; any other number goes through pd.to_datetime bare,
which reads it as nanoseconds; a string goes through the pandas generic
parser, abstracted as gdt.  The except branch returning str(value) catches
every conversion failure: a string the parser rejects, and a number outside
the pandas Timestamp range, for which pd.to_datetime raises
OutOfBoundsDatetime (this cuts into the plausibility window itself: seconds
in [9223372037, 1e10) render as the raw number). -/
def format_date_value (gdt : String → Option Date) : Value → String
  | .vnull => ""
  | .vint n =>
    if 1000000000 < n ∧ n < 10000000000 then
      if minTimestampSeconds ≤ n ∧ n ≤ maxTimestampSeconds then
        formatDDMMYYYY (dateOfUnixSeconds n)
      else toString n
    else
      if minTimestampNanoseconds ≤ n ∧ n ≤ maxTimestampNanoseconds then
        formatDDMMYYYY (dateOfUnixNanoseconds n)
      else toString n
  | .vstr s =>
    match gdt s with
    | some d => formatDDMMYYYY d
    | none => s

/-! ### Column width allocation (pdf_generator.create_pdf) -/

/-- reportlab cm in points: 72 / 2.54, kept exact. -/
def cmQ : ℚ := 3600 / 127

/-- The max_content_length computation of create_pdf for one column: a fixed
12 for date columns, otherwise the longer of the header text and the longest
stringified cell; a column absent from the data falls back to its header
length. -/
def contentLen (df : DF) (dateCols : List String) (col : String) : Nat :=
  if df.cols.contains col then
    if dateCols.contains col then 12
    else max col.length ((df.rows.map (fun r => (pyStr (getCell r col)).length)).foldl max 0)
  else col.length

/-- The column width pipeline of create_pdf: base width = available / count,
per-column width = min(max(0.6 base, content estimate), 1.5 base), then a
proportional rescale whenever the total differs from the available width.
Arithmetic is modelled exactly over the rationals. -/
def computeColWidths (available : ℚ) (df : DF) (columns dateCols : List String) :
    List ℚ :=
  let base := available / (columns.length : ℚ)
  let ws := columns.map (fun col =>
    min (max (base * (6 / 10)) ((contentLen df dateCols col : ℚ) * (15 / 100) * cmQ))
      (base * (15 / 10)))
  let total := ws.sum
  if total ≠ available then ws.map (fun w => w * (available / total)) else ws

/-! ### Attachment reconciler (app.upload_pdfs_to_grist) -/

/-- A raw Grist record envelope: numeric id plus field map. -/
structure GristRecord where
  id : Int
  fields : Row
deriving DecidableEq, Repr

/-- Field access on the envelope (fields.get, None when absent). -/
def getField (r : GristRecord) (c : String) : Value :=
  getCell r.fields c

/-- The per-record comparison of the reconciliation loop: on a date column
the raw value is pushed through the unit-s timestamp conversion and rendered
DD/MM/YYYY before comparing to the group key (a NaT conversion renders as the
string "nan"); otherwise the raw value is compared stringified. -/
def recordMatchesKey (isDate : Bool) (filterCol key : String) (r : GristRecord) : Bool :=
  let v := getField r filterCol
  if isDate then
    (match toPandasDate v with
     | some d => formatDDMMYYYY d
     | none => "nan") == key
  else pyStrScalar v == key

/-- The search loop of upload_pdfs_to_grist: scan the fetched records in
order and stop at the first match. -/
def find_target_record (isDate : Bool) (filterCol key : String) :
    List GristRecord → Option GristRecord
  | [] => none
  | r :: rest =>
    if recordMatchesKey isDate filterCol key r then some r
    else find_target_record isDate filterCol key rest

/-! ### Concrete test data -/

/-- Three demo records mirroring the Ville/Age table of the repository tests. -/
def demoRows : List Row :=
  [[("Nom", Value.vstr "Dupont"), ("Ville", Value.vstr "Paris"), ("Age", Value.vint 30)],
   [("Nom", Value.vstr "Martin"), ("Ville", Value.vstr "Lyon"), ("Age", Value.vint 25)],
   [("Nom", Value.vstr "Bernard"), ("Ville", Value.vstr "Paris"), ("Age", Value.vint 35)]]

/-- A two-row table whose column D is declared Date and holds Unix seconds. -/
def demoDateRows : List Row :=
  [[("Ville", Value.vstr "Paris"), ("D", Value.vint 1700000000)],
   [("Ville", Value.vstr "Lyon"), ("D", Value.vint 1700000000)]]

/-- The Ville grouping scenario records (Paris, Lyon, Paris). -/
def villeRows : List Row :=
  [[("Nom", Value.vstr "Dupont"), ("Ville", Value.vstr "Paris"), ("Score", Value.vint 10)],
   [("Nom", Value.vstr "Martin"), ("Ville", Value.vstr "Lyon"), ("Score", Value.vint 8)],
   [("Nom", Value.vstr "Bernard"), ("Ville", Value.vstr "Paris"), ("Score", Value.vint 12)]]

/-- The Paris group the Ville scenario produces. -/
def parisGroup : DF :=
  { cols := ["Nom", "Score"],
    rows := [[("Nom", Value.vstr "Dupont"), ("Score", Value.vint 10)],
             [("Nom", Value.vstr "Bernard"), ("Score", Value.vint 12)]] }

/-- The Lyon group the Ville scenario produces. -/
def lyonGroup : DF :=
  { cols := ["Nom", "Score"],
    rows := [[("Nom", Value.vstr "Martin"), ("Score", Value.vint 8)]] }

/-- A resolvable text predicate over the demo date table. -/
def fGoodC1 : FilterConfig :=
  { column := "Ville", operator := "equals", value := some "Paris" }

/-- A date predicate whose value no date format parses. -/
def fBadC1 : FilterConfig :=
  { column := "D", operator := "equals", value := some "xyz" }

/-! ### Helper lemmas -/

theorem applyMask_map (rows : List Row) (p : Row → Bool) :
    applyMask rows (rows.map p) = rows.filter p := by
  induction rows with
  | nil => rfl
  | cons r rest ih =>
    cases hp : p r <;>
      simp only [applyMask, List.map_cons, List.zip_cons_cons, List.filterMap_cons, hp,
        List.filter_cons] <;>
      simpa [applyMask, hp] using ih

theorem zipWith_or_maps (rows : List Row) (g h : Row → Bool) :
    (rows.map g).zipWith (fun a b => a || b) (rows.map h)
      = rows.map (fun r => g r || h r) := by
  induction rows with
  | nil => rfl
  | cons r rest ih => simp [List.zipWith, ih]

theorem foldl_zipWith_or_maps (rows : List Row) (gs : List (Row → Bool)) (p : Row → Bool) :
    (gs.map (fun h => rows.map h)).foldl
        (fun acc m => acc.zipWith (fun a b => a || b) m) (rows.map p)
      = rows.map (fun r => gs.foldl (fun b h => b || h r) (p r)) := by
  induction gs generalizing p with
  | nil => rfl
  | cons h gs ih =>
    simp only [List.map_cons, List.foldl_cons]
    rw [zipWith_or_maps]
    exact ih (fun r => p r || h r)

theorem foldl_or_eq_any {α : Type} (gs : List α) (q : α → Bool) (b0 : Bool) :
    gs.foldl (fun b x => b || q x) b0 = (b0 || gs.any q) := by
  induction gs generalizing b0 with
  | nil => simp
  | cons x gs ih => simp [List.foldl_cons, ih, Bool.or_assoc]

theorem sum_map_mul_const (l : List ℚ) (c : ℚ) :
    (l.map (fun w => w * c)).sum = l.sum * c := by
  induction l with
  | nil => simp
  | cons x l ih => simp [ih, add_mul]

theorem mem_of_mem_dedupByAux {α : Type} (eqf : α → α → Bool) (x : α) :
    ∀ (l seen : List α), x ∈ dedupByAux eqf seen l → x ∈ l := by
  intro l
  induction l with
  | nil => intro seen hx; simp [dedupByAux] at hx
  | cons v rest ih =>
    intro seen hx
    by_cases h : seen.any (eqf v) = true
    · simp only [dedupByAux, if_pos h] at hx
      exact List.mem_cons_of_mem _ (ih seen hx)
    · simp only [dedupByAux, if_neg h, List.mem_cons] at hx
      rcases hx with rfl | hx
      · exact List.mem_cons_self _ _
      · exact List.mem_cons_of_mem _ (ih _ hx)

theorem string_data_append (a b : String) : (a ++ b).data = a.data ++ b.data := rfl

theorem isPrefixOf_append_self (l ys : List Char) : l.isPrefixOf (l ++ ys) = true := by
  induction l with
  | nil => simp [List.isPrefixOf]
  | cons c cs ih => simp [List.isPrefixOf, ih]

theorem pyEndsWith_append (f : String) : pyEndsWith (f ++ ".pdf") ".pdf" = true := by
  show List.isSuffixOf _ _ = true
  rw [string_data_append]
  show List.isPrefixOf _ _ = true
  rw [List.reverse_append]
  exact isPrefixOf_append_self _ _

theorem skip_of_noop (cols : List String) (p : FilterConfig)
    (hp : p.value = none ∨ p.value = some "") : skipFilter cols p = true := by
  rcases hp with h | h <;> simp [skipFilter, h]

theorem foldl_andStep_skip (g : String → Option Date)
    (rex : String → Option (String → Bool)) (types : List (String × String))
    (cols : List String) (rows : List Row) (fs1 fs2 : List FilterConfig)
    (p : FilterConfig) (hp : skipFilter cols p = true) :
    (fs1 ++ p :: fs2).foldl (andStep g rex types cols) rows
      = (fs1 ++ fs2).foldl (andStep g rex types cols) rows := by
  simp [List.foldl_append, List.foldl_cons, andStep, hp]

theorem foldl_andStep_id (g : String → Option Date)
    (rex : String → Option (String → Bool)) (types : List (String × String))
    (cols : List String) (rows : List Row) (fs : List FilterConfig)
    (h : ∀ f ∈ fs, skipFilter cols f = true) :
    fs.foldl (andStep g rex types cols) rows = rows := by
  induction fs with
  | nil => rfl
  | cons f fs ih =>
    rw [List.foldl_cons,
      show andStep g rex types cols rows f = rows from by
        simp [andStep, h f (List.mem_cons_self f fs)]]
    exact ih (fun f' hf' => h f' (List.mem_cons_of_mem _ hf'))

theorem filterMap_if_none {α β : Type} (p : α → Bool) (mk : α → β) (l : List α) :
    l.filterMap (fun x => if p x then none else some (mk x))
      = (l.filter (fun x => !(p x))).map mk := by
  induction l with
  | nil => rfl
  | cons x l ih =>
    cases hp : p x <;> simp [List.filterMap_cons, List.filter_cons, hp, ih]

theorem filterMap_skip_or_fail (g : String → Option Date)
    (rex : String → Option (String → Bool)) (df : DF)
    (types : List (String × String)) (fs : List FilterConfig) :
    fs.filterMap (fun f => if skipFilter df.cols f then none
        else create_filter_mask g rex df f.column f.operator (f.value.getD "") types)
      = (fs.filter (fun f => !(skipFilter df.cols f
            || maskFails rex types f.column f.operator (f.value.getD "")))).map
          (fun f => df.rows.map
            (rowMatch g rex types f.column f.operator (f.value.getD ""))) := by
  have hfun : (fun f => if skipFilter df.cols f then none
      else create_filter_mask g rex df f.column f.operator (f.value.getD "") types)
      = (fun f => if (skipFilter df.cols f
          || maskFails rex types f.column f.operator (f.value.getD "")) then none
        else some (df.rows.map
          (rowMatch g rex types f.column f.operator (f.value.getD "")))) := by
    funext f
    cases hs : skipFilter df.cols f
    · cases hm : maskFails rex types f.column f.operator (f.value.getD "")
      · simp [create_filter_mask, hs, hm]
      · simp [create_filter_mask, hs, hm]
    · simp [hs]
  rw [hfun]
  exact filterMap_if_none _ _ fs

theorem apply_all_skipped (g : String → Option Date)
    (rex : String → Option (String → Bool)) (df : DF)
    (types : List (String × String)) (mode : String) (fs : List FilterConfig)
    (h : ∀ q ∈ fs, skipFilter df.cols q = true) :
    apply_advanced_filters g rex df (.withMode mode fs) types = df
    ∧ apply_advanced_filters g rex df (.legacy fs) types = df := by
  have hand : applyAndMode g rex df fs types = df := by
    rw [applyAndMode, foldl_andStep_id g rex types df.cols df.rows fs h]
  have hmasks : fs.filterMap (fun f => if skipFilter df.cols f then none
      else create_filter_mask g rex df f.column f.operator (f.value.getD "") types) = [] := by
    have hf : fs.filter (fun f => !(skipFilter df.cols f
        || maskFails rex types f.column f.operator (f.value.getD ""))) = [] := by
      rw [List.filter_eq_nil_iff]
      intro a ha
      simp [h a ha]
    rw [filterMap_skip_or_fail, hf]
    rfl
  have hor : applyOrMode g rex df fs types = df := by
    simp [applyOrMode, hmasks]
  constructor
  · by_cases hde : df.pdEmpty = true
    · simp [apply_advanced_filters, hde]
    · by_cases hfs : fs.isEmpty = true
      · simp [apply_advanced_filters, hde, hfs]
      · simp [apply_advanced_filters, hde, hfs, hand, hor]
  · by_cases hde : df.pdEmpty = true
    · simp [apply_advanced_filters, hde]
    · by_cases hfs : fs.isEmpty = true
      · simp [apply_advanced_filters, hde, hfs]
      · simp [apply_advanced_filters, hde, hfs, hand]

theorem apply_insert_skip (g : String → Option Date)
    (rex : String → Option (String → Bool)) (df : DF)
    (types : List (String × String)) (mode : String)
    (fs1 fs2 : List FilterConfig) (p : FilterConfig)
    (hskip : skipFilter df.cols p = true) :
    apply_advanced_filters g rex df (.withMode mode (fs1 ++ p :: fs2)) types
      = apply_advanced_filters g rex df (.withMode mode (fs1 ++ fs2)) types
    ∧ apply_advanced_filters g rex df (.legacy (fs1 ++ p :: fs2)) types
      = apply_advanced_filters g rex df (.legacy (fs1 ++ fs2)) types := by
  have hand : applyAndMode g rex df (fs1 ++ p :: fs2) types
      = applyAndMode g rex df (fs1 ++ fs2) types := by
    simp [applyAndMode, foldl_andStep_skip g rex types df.cols df.rows fs1 fs2 p hskip]
  have hor : applyOrMode g rex df (fs1 ++ p :: fs2) types
      = applyOrMode g rex df (fs1 ++ fs2) types := by
    unfold applyOrMode
    rw [List.filterMap_append, List.filterMap_append,
      List.filterMap_cons_none (by simp [hskip])]
  by_cases hde : df.pdEmpty = true
  · simp [apply_advanced_filters, hde]
  · by_cases hfs : (fs1 ++ fs2).isEmpty = true
    · obtain ⟨rfl, rfl⟩ : fs1 = [] ∧ fs2 = [] :=
        List.append_eq_nil.mp (List.isEmpty_iff.mp hfs)
      have h1 : ∀ q ∈ [p], skipFilter df.cols q = true := by
        intro q hq
        rw [List.mem_singleton.mp hq]
        exact hskip
      constructor
      · rw [List.nil_append, List.nil_append,
          (apply_all_skipped g rex df types mode [p] h1).1]
        simp [apply_advanced_filters, hde]
      · rw [List.nil_append, List.nil_append,
          (apply_all_skipped g rex df types mode [p] h1).2]
        simp [apply_advanced_filters]
    · have hne : (fs1 ++ p :: fs2).isEmpty = false := by
        simp [List.isEmpty_iff]
      constructor
      · simp [apply_advanced_filters, hde, hfs, hne, hand, hor]
      · simp [apply_advanced_filters, hde, hfs, hne, hand]

theorem any_map_apply {α β : Type} (l : List α) (fn : α → β → Bool) (r : β) :
    (l.map fn).any (fun h => h r) = l.any (fun f => fn f r) := by
  induction l with
  | nil => rfl
  | cons x l ih => simp [List.any_cons, ih]

theorem applyOrMode_rows (g : String → Option Date)
    (rex : String → Option (String → Bool)) (df : DF)
    (types : List (String × String)) (fs : List FilterConfig) :
    (applyOrMode g rex df fs types).rows
      = (if (fs.filter (fun f => !(skipFilter df.cols f
            || maskFails rex types f.column f.operator (f.value.getD "")))).isEmpty
         then df.rows
         else df.rows.filter (fun r =>
           (fs.filter (fun f => !(skipFilter df.cols f
              || maskFails rex types f.column f.operator (f.value.getD "")))).any
             (fun f => rowMatch g rex types f.column f.operator (f.value.getD "") r))) := by
  unfold applyOrMode
  rw [filterMap_skip_or_fail]
  cases haf : fs.filter (fun f => !(skipFilter df.cols f
      || maskFails rex types f.column f.operator (f.value.getD ""))) with
  | nil => simp
  | cons f0 af' =>
    simp only [List.map_cons, List.isEmpty_cons, Bool.false_eq_true, if_false]
    have hrep : af'.map (fun f =>
          df.rows.map (rowMatch g rex types f.column f.operator (f.value.getD "")))
        = (af'.map (fun f => fun r =>
            rowMatch g rex types f.column f.operator (f.value.getD "") r)).map
            (fun h => df.rows.map h) := by
      simp only [List.map_map]
      rfl
    rw [hrep]
    show applyMask df.rows _ = _
    rw [foldl_zipWith_or_maps, applyMask_map]
    refine List.filter_congr (fun r _ => ?_)
    rw [foldl_or_eq_any, any_map_apply]
    simp [List.any_cons]

theorem apply_and_single_active (g : String → Option Date)
    (rex : String → Option (String → Bool)) (df : DF)
    (types : List (String × String)) (f : FilterConfig)
    (hact : skipFilter df.cols f = false)
    (hok : maskFails rex types f.column f.operator (f.value.getD "") = false) :
    (apply_advanced_filters g rex df (.withMode "and" [f]) types).rows
      = df.rows.filter
          (fun r => rowMatch g rex types f.column f.operator (f.value.getD "") r) := by
  by_cases hre : df.rows.isEmpty = true
  · simp [apply_advanced_filters, DF.pdEmpty, hre, List.isEmpty_iff.mp hre]
  · by_cases hce : df.cols.isEmpty = true
    · exfalso
      rw [List.isEmpty_iff.mp hce] at hact
      simp [skipFilter] at hact
    · have hde : df.pdEmpty = false := by simp [DF.pdEmpty, hre, hce]
      rw [show apply_advanced_filters g rex df (.withMode "and" [f]) types
          = applyAndMode g rex df [f] types from by
        simp [apply_advanced_filters, hde]]
      simp only [applyAndMode, List.foldl_cons, List.foldl_nil, andStep, hact,
        Bool.false_eq_true, if_false, create_filter_mask, hok]
      exact applyMask_map df.rows _

theorem apply_and_single_fail (g : String → Option Date)
    (rex : String → Option (String → Bool)) (df : DF)
    (types : List (String × String)) (f : FilterConfig)
    (hfail : maskFails rex types f.column f.operator (f.value.getD "") = true) :
    (apply_advanced_filters g rex df (.withMode "and" [f]) types).rows = df.rows := by
  by_cases hde : df.pdEmpty = true
  · simp [apply_advanced_filters, hde]
  · rw [show apply_advanced_filters g rex df (.withMode "and" [f]) types
        = applyAndMode g rex df [f] types from by
      simp [apply_advanced_filters, hde]]
    by_cases hs : skipFilter df.cols f = true
    · simp [applyAndMode, andStep, hs]
    · simp [applyAndMode, andStep, hs, create_filter_mask, hfail]

/-! ### Claim theorems -/

/-- C5: in both AND and OR mode (and under any other mode string, which runs
the AND fallback, and under the legacy list shape), a predicate whose value
is absent or the empty string is a no-op: inserting or removing it never
changes the evaluation, and a specification made only of such predicates
returns the table unchanged. -/
theorem empty_value_predicate_noop (g : String → Option Date)
    (rex : String → Option (String → Bool)) (df : DF)
    (types : List (String × String)) (mode : String)
    (fs1 fs2 : List FilterConfig) (p : FilterConfig)
    (hp : p.value = none ∨ p.value = some "") :
    (apply_advanced_filters g rex df (.withMode mode (fs1 ++ p :: fs2)) types
       = apply_advanced_filters g rex df (.withMode mode (fs1 ++ fs2)) types)
    ∧ (apply_advanced_filters g rex df (.legacy (fs1 ++ p :: fs2)) types
       = apply_advanced_filters g rex df (.legacy (fs1 ++ fs2)) types)
    ∧ ∀ fs : List FilterConfig, (∀ q ∈ fs, q.value = none ∨ q.value = some "") →
        apply_advanced_filters g rex df (.withMode mode fs) types = df
        ∧ apply_advanced_filters g rex df (.legacy fs) types = df := by
  have hskip := skip_of_noop df.cols p hp
  refine ⟨(apply_insert_skip g rex df types mode fs1 fs2 p hskip).1,
    (apply_insert_skip g rex df types mode fs1 fs2 p hskip).2, ?_⟩
  intro fs hfs
  exact apply_all_skipped g rex df types mode fs
    (fun q hq => skip_of_noop df.cols q (hfs q hq))

/-- C5 witness: on a concrete two-row table, appending an empty-value
predicate to an OR specification leaves the result unchanged, and a
specification made of one empty-value predicate returns the table. -/
theorem empty_value_predicate_noop_witness :
    (({ column := "Ville", operator := "equals", value := some "" } : FilterConfig).value
        = some "")
    ∧ apply_advanced_filters (fun _ => none) (fun _ => none)
        (mkDF [[("Ville", Value.vstr "Paris")], [("Ville", Value.vstr "Lyon")]])
        (.withMode "or" [{ column := "Ville", operator := "equals", value := some "Paris" },
          { column := "Ville", operator := "equals", value := some "" }]) []
      = apply_advanced_filters (fun _ => none) (fun _ => none)
        (mkDF [[("Ville", Value.vstr "Paris")], [("Ville", Value.vstr "Lyon")]])
        (.withMode "or" [{ column := "Ville", operator := "equals", value := some "Paris" }]) []
    ∧ apply_advanced_filters (fun _ => none) (fun _ => none)
        (mkDF [[("Ville", Value.vstr "Paris")], [("Ville", Value.vstr "Lyon")]])
        (.withMode "and" [{ column := "Ville", operator := "equals", value := some "" }]) []
      = mkDF [[("Ville", Value.vstr "Paris")], [("Ville", Value.vstr "Lyon")]] :=
  ⟨rfl,
    (empty_value_predicate_noop (fun _ => none) (fun _ => none)
      (mkDF [[("Ville", Value.vstr "Paris")], [("Ville", Value.vstr "Lyon")]]) [] "or"
      [{ column := "Ville", operator := "equals", value := some "Paris" }] []
      { column := "Ville", operator := "equals", value := some "" } (Or.inr rfl)).1,
    ((empty_value_predicate_noop (fun _ => none) (fun _ => none)
      (mkDF [[("Ville", Value.vstr "Paris")], [("Ville", Value.vstr "Lyon")]]) [] "and"
      [] [] { column := "Ville", operator := "equals", value := some "" }
      (Or.inr rfl)).2.2
      [{ column := "Ville", operator := "equals", value := some "" }]
      (by intro q hq; rw [List.mem_singleton.mp hq]; exact Or.inr rfl)).1⟩

/-- C10: evaluating the filter with the legacy payload shape (a bare list of
predicates) and with the dict shape carrying mode and the same list returns
the same filtered table, and a dict with an unrecognized mode string falls
back to this AND-mode evaluation. -/
theorem legacy_payload_equiv_and_mode (g : String → Option Date)
    (rex : String → Option (String → Bool))
    (df : DF) (types : List (String × String)) (fs : List FilterConfig) :
    apply_advanced_filters g rex df (.legacy fs) types
      = apply_advanced_filters g rex df (.withMode "and" fs) types
    ∧ ∀ mode : String, mode ≠ "and" → mode ≠ "or" →
        apply_advanced_filters g rex df (.withMode mode fs) types
          = apply_advanced_filters g rex df (.withMode "and" fs) types := by
  constructor
  · simp only [apply_advanced_filters]
    cases hfs : fs.isEmpty <;> cases hde : df.pdEmpty <;> simp [hfs, hde]
  · intro mode h1 h2
    simp only [apply_advanced_filters]
    cases hde : df.pdEmpty <;> cases hfs : fs.isEmpty <;>
      simp [hfs, hde, beq_iff_eq, h1, h2]

/-- C10 witness: a concrete unknown mode string and a concrete table agree
with both the legacy shape and the AND-mode dict shape. -/
theorem legacy_payload_equiv_and_mode_witness :
    ("union" : String) ≠ "and" ∧ ("union" : String) ≠ "or" ∧
    apply_advanced_filters (fun _ => none) (fun _ => none)
        (mkDF [[("Ville", Value.vstr "Paris")], [("Ville", Value.vstr "Lyon")]])
        (.withMode "union" [{ column := "Ville", operator := "equals", value := some "Paris" }]) []
      = apply_advanced_filters (fun _ => none) (fun _ => none)
        (mkDF [[("Ville", Value.vstr "Paris")], [("Ville", Value.vstr "Lyon")]])
        (.withMode "and" [{ column := "Ville", operator := "equals", value := some "Paris" }]) [] :=
  ⟨by decide, by decide,
    (legacy_payload_equiv_and_mode (fun _ => none) (fun _ => none)
        (mkDF [[("Ville", Value.vstr "Paris")], [("Ville", Value.vstr "Lyon")]]) []
        [{ column := "Ville", operator := "equals", value := some "Paris" }]).2
      "union" (by decide) (by decide)⟩

/-- C2: in OR mode, when every predicate is usable (none is skipped), the
result is exactly the rows of the original table that satisfy at least one
predicate mask, kept in original order with each row occurrence at most once;
and each predicate evaluated alone yields precisely its independent match
set against the unfiltered table, so the result is the ordered union of
those match sets. -/
theorem or_mode_union_of_matches (g : String → Option Date)
    (rex : String → Option (String → Bool)) (df : DF)
    (types : List (String × String)) (fs : List FilterConfig)
    (hne : fs ≠ []) (hact : ∀ f ∈ fs, skipFilter df.cols f = false)
    (hres : ∀ f ∈ fs,
      maskFails rex types f.column f.operator (f.value.getD "") = false) :
    (apply_advanced_filters g rex df (.withMode "or" fs) types).rows
      = df.rows.filter (fun r => fs.any (fun f =>
          rowMatch g rex types f.column f.operator (f.value.getD "") r))
    ∧ ∀ f ∈ fs,
        (apply_advanced_filters g rex df (.withMode "or" [f]) types).rows
          = df.rows.filter (fun r =>
              rowMatch g rex types f.column f.operator (f.value.getD "") r) := by
  have main : ∀ fs' : List FilterConfig, fs' ≠ [] →
      (∀ f ∈ fs', skipFilter df.cols f = false) →
      (∀ f ∈ fs',
        maskFails rex types f.column f.operator (f.value.getD "") = false) →
      (apply_advanced_filters g rex df (.withMode "or" fs') types).rows
        = df.rows.filter (fun r => fs'.any (fun f =>
            rowMatch g rex types f.column f.operator (f.value.getD "") r)) := by
    intro fs' hne' hact' hres'
    by_cases hre : df.rows.isEmpty = true
    · have hrows : df.rows = [] := List.isEmpty_iff.mp hre
      have hde : df.pdEmpty = true := by simp [DF.pdEmpty, hre]
      simp [apply_advanced_filters, hde, hrows]
    · by_cases hce : df.cols.isEmpty = true
      · exfalso
        obtain ⟨f0, fs'', rfl⟩ : ∃ f0 fs'', fs' = f0 :: fs'' := by
          cases fs' with
          | nil => exact absurd rfl hne'
          | cons a l => exact ⟨a, l, rfl⟩
        have h0 := hact' f0 (List.mem_cons_self f0 fs'')
        have hcols : df.cols = [] := List.isEmpty_iff.mp hce
        simp [skipFilter, hcols] at h0
      · have hde : df.pdEmpty = false := by simp [DF.pdEmpty, hre, hce]
        have hfs : fs'.isEmpty = false := by
          cases fs' with
          | nil => exact absurd rfl hne'
          | cons a l => rfl
        have hfilter : fs'.filter (fun f => !(skipFilter df.cols f
            || maskFails rex types f.column f.operator (f.value.getD ""))) = fs' :=
          List.filter_eq_self.mpr
            (fun a ha => by simp [hact' a ha, hres' a ha])
        rw [show apply_advanced_filters g rex df (.withMode "or" fs') types
            = applyOrMode g rex df fs' types from by
          simp [apply_advanced_filters, hde, hfs]]
        rw [applyOrMode_rows, hfilter]
        simp [hfs]
  constructor
  · exact main fs hne hact hres
  · intro f hf
    have h1 := main [f] (by simp)
      (by intro q hq; rw [List.mem_singleton.mp hq]; exact hact f hf)
      (by intro q hq; rw [List.mem_singleton.mp hq]; exact hres f hf)
    simpa using h1

/-- C2 witness: on the three-row demo table, an OR specification of two
resolvable predicates returns exactly the rows matching at least one of
them, in original order. -/
theorem or_mode_union_of_matches_witness :
    (∀ f ∈ ([{ column := "Ville", operator := "equals", value := some "Lyon" },
        { column := "Age", operator := "greater_than", value := some "32" }] :
          List FilterConfig),
      skipFilter (mkDF demoRows).cols f = false)
    ∧ (∀ f ∈ ([{ column := "Ville", operator := "equals", value := some "Lyon" },
        { column := "Age", operator := "greater_than", value := some "32" }] :
          List FilterConfig),
      maskFails (fun _ => none) [] f.column f.operator (f.value.getD "") = false)
    ∧ (apply_advanced_filters (fun _ => none) (fun _ => none) (mkDF demoRows)
        (.withMode "or" [{ column := "Ville", operator := "equals", value := some "Lyon" },
          { column := "Age", operator := "greater_than", value := some "32" }]) []).rows
      = [[("Nom", Value.vstr "Martin"), ("Ville", Value.vstr "Lyon"), ("Age", Value.vint 25)],
         [("Nom", Value.vstr "Bernard"), ("Ville", Value.vstr "Paris"), ("Age", Value.vint 35)]] :=
  ⟨by decide, by decide,
    (or_mode_union_of_matches (fun _ => none) (fun _ => none) (mkDF demoRows) []
      [{ column := "Ville", operator := "equals", value := some "Lyon" },
       { column := "Age", operator := "greater_than", value := some "32" }]
      (by decide) (by decide) (by decide)).1.trans (by decide)⟩

/-- C1 counterexample: in OR mode, a predicate over a Date column whose value
parses under no format does not contribute an empty set; the evaluation
returns every row of the table, while the remaining resolvable predicate
alone matches only the Paris row, so the claimed equality fails. -/
theorem or_mode_failed_predicate_counterexample :
    (apply_advanced_filters (fun _ => none) (fun _ => none) (mkDF demoDateRows)
        (.withMode "or" [fGoodC1, fBadC1]) [("D", "Date")]).rows = demoDateRows
    ∧ (apply_advanced_filters (fun _ => none) (fun _ => none) (mkDF demoDateRows)
        (.withMode "or" [fGoodC1]) [("D", "Date")]).rows
      = [[("Ville", Value.vstr "Paris"), ("D", Value.vint 1700000000)]]
    ∧ demoDateRows
      ≠ [[("Ville", Value.vstr "Paris"), ("D", Value.vint 1700000000)]] :=
  ⟨by decide, by decide, by decide⟩

/-- C1 (amended): in OR mode, a predicate on a Date column whose value fails
every parse attempt, or whose operator is unsupported on dates, degrades to
an all-True mask inside the mask builder (no exception escapes), so it
contributes the entire table to the union: the evaluation returns every row. -/
theorem or_mode_failed_predicate_selects_all (g : String → Option Date)
    (rex : String → Option (String → Bool)) (df : DF)
    (types : List (String × String)) (fs : List FilterConfig) (p : FilterConfig)
    (hmem : p ∈ fs) (hskip : skipFilter df.cols p = false)
    (hdate : is_date_column types p.column = true)
    (hfail : parse_date_filter g (p.value.getD "") = none
      ∨ (p.operator ≠ "equals" ∧ p.operator ≠ "not_equals"
          ∧ p.operator ≠ "greater_than" ∧ p.operator ≠ "less_than")) :
    (apply_advanced_filters g rex df (.withMode "or" fs) types).rows = df.rows := by
  have hpf : maskFails rex types p.column p.operator (p.value.getD "") = false := by
    simp [maskFails, hdate]
  have hconst : ∀ r : Row,
      rowMatch g rex types p.column p.operator (p.value.getD "") r = true := by
    intro r
    unfold rowMatch
    rw [if_pos hdate]
    rcases hfail with hf | ⟨h1, h2, h3, h4⟩
    · rw [hf]
    · cases hparse : parse_date_filter g (p.value.getD "") with
      | none => rfl
      | some fd => simp [beq_iff_eq, h1, h2, h3, h4]
  by_cases hre : df.rows.isEmpty = true
  · have hde : df.pdEmpty = true := by simp [DF.pdEmpty, hre]
    simp [apply_advanced_filters, hde]
  · by_cases hce : df.cols.isEmpty = true
    · exfalso
      have hcols : df.cols = [] := List.isEmpty_iff.mp hce
      rw [hcols] at hskip
      simp [skipFilter] at hskip
    · have hde : df.pdEmpty = false := by simp [DF.pdEmpty, hre, hce]
      have hfs : fs.isEmpty = false := by
        cases fs with
        | nil => cases hmem
        | cons a l => rfl
      rw [show apply_advanced_filters g rex df (.withMode "or" fs) types
          = applyOrMode g rex df fs types from by
        simp [apply_advanced_filters, hde, hfs]]
      rw [applyOrMode_rows]
      have hpin : p ∈ fs.filter (fun f => !(skipFilter df.cols f
          || maskFails rex types f.column f.operator (f.value.getD ""))) :=
        List.mem_filter.mpr ⟨hmem, by simp [hskip, hpf]⟩
      have hafne : (fs.filter (fun f => !(skipFilter df.cols f
          || maskFails rex types f.column f.operator (f.value.getD "")))).isEmpty
            = false := by
        cases haf : fs.filter (fun f => !(skipFilter df.cols f
            || maskFails rex types f.column f.operator (f.value.getD ""))) with
        | nil => rw [haf] at hpin; cases hpin
        | cons a l => rfl
      rw [if_neg (by rw [hafne]; simp)]
      refine List.filter_eq_self.mpr (fun r hr => ?_)
      exact List.any_eq_true.mpr ⟨p, hpin, hconst r⟩

/-- C1 witness: on the concrete demo date table, the OR specification made of
one resolvable text predicate and one unparseable date predicate returns
every row. -/
theorem or_mode_failed_predicate_selects_all_witness :
    parse_date_filter (fun _ => none) (fBadC1.value.getD "") = none
    ∧ fBadC1 ∈ [fGoodC1, fBadC1]
    ∧ (apply_advanced_filters (fun _ => none) (fun _ => none) (mkDF demoDateRows)
        (.withMode "or" [fGoodC1, fBadC1]) [("D", "Date")]).rows = demoDateRows :=
  ⟨by decide, by decide,
    or_mode_failed_predicate_selects_all (fun _ => none) (fun _ => none)
      (mkDF demoDateRows) [("D", "Date")] [fGoodC1, fBadC1] fBadC1
      (by decide) (by decide) (by decide) (Or.inl (by decide))⟩

/-- C4 counterexample: on a one-row table whose cell is "paris", the
starts_with predicate with value "PAR" excludes the row, although the
lower-cased cell does start with the lower-cased value; so starts_with is
not case-insensitive as claimed. -/
theorem starts_with_case_counterexample :
    (apply_advanced_filters (fun _ => none) (fun _ => none)
        (mkDF [[("A", Value.vstr "paris")]])
        (.withMode "and"
          [{ column := "A", operator := "starts_with", value := some "PAR" }]) []).rows
      = []
    ∧ List.isPrefixOf (pyLower "PAR").data
        (pyLower (pyStr (getCell [("A", Value.vstr "paris")] "A"))).data = true :=
  ⟨by decide, by decide⟩

/-- C4 (amended): for a non-date column, contains hands the filter value as
a regular-expression pattern to the engine with the case-insensitive flag:
when the engine accepts the pattern, a row is kept exactly when the compiled
pattern matches the stringified cell — for a literal (metacharacter-free)
value that test is the case-insensitive substring test, a row matching
exactly when the lower-cased cell contains the lower-cased value — and when
the engine rejects the pattern (re.error) the mask builder raises and the
predicate is skipped; starts_with and ends_with are case-sensitive: a row
matches exactly when the stringified cell starts/ends with the value
verbatim. -/
theorem string_operator_semantics (g : String → Option Date)
    (rex : String → Option (String → Bool)) (df : DF)
    (types : List (String × String)) (col v : String) (f : String → Bool)
    (hcol : col ∈ df.cols) (hcne : col ≠ "") (hv : v ≠ "")
    (hnd : is_date_column types col = false) :
    (rex v = some f →
      (apply_advanced_filters g rex df (.withMode "and"
          [{ column := col, operator := "contains", value := some v }]) types).rows
        = df.rows.filter (fun r => f (pyStr (getCell r col))))
    ∧ (rex v = some f →
        (∀ s, f s = listIsInfixOf (pyLower v).data (pyLower s).data) →
      (apply_advanced_filters g rex df (.withMode "and"
          [{ column := col, operator := "contains", value := some v }]) types).rows
        = df.rows.filter (fun r =>
            listIsInfixOf (pyLower v).data
              (pyLower (pyStr (getCell r col))).data))
    ∧ (rex v = none →
      (apply_advanced_filters g rex df (.withMode "and"
          [{ column := col, operator := "contains", value := some v }]) types).rows
        = df.rows)
    ∧ ((apply_advanced_filters g rex df (.withMode "and"
        [{ column := col, operator := "starts_with", value := some v }]) types).rows
      = df.rows.filter (fun r =>
          List.isPrefixOf v.data (pyStr (getCell r col)).data))
    ∧ ((apply_advanced_filters g rex df (.withMode "and"
        [{ column := col, operator := "ends_with", value := some v }]) types).rows
      = df.rows.filter (fun r =>
          List.isSuffixOf v.data (pyStr (getCell r col)).data)) := by
  have hact : ∀ op : String, op ≠ "" →
      skipFilter df.cols { column := col, operator := op, value := some v } = false := by
    intro op hop
    simp [skipFilter, beq_iff_eq, hcol, hcne, hv, hop]
  have hcontains : rex v = some f →
      (apply_advanced_filters g rex df (.withMode "and"
          [{ column := col, operator := "contains", value := some v }]) types).rows
        = df.rows.filter (fun r => f (pyStr (getCell r col))) := by
    intro hrex
    rw [apply_and_single_active g rex df types _ (hact "contains" (by decide))
      (by simp [maskFails, hrex])]
    refine List.filter_congr (fun r _ => ?_)
    simp [rowMatch, hnd, hrex]
  refine ⟨hcontains, ?_, ?_, ?_, ?_⟩
  · intro hrex hf
    rw [hcontains hrex]
    exact List.filter_congr (fun r _ => hf (pyStr (getCell r col)))
  · intro hrex
    exact apply_and_single_fail g rex df types _ (by simp [maskFails, hnd, hrex])
  · rw [apply_and_single_active g rex df types _ (hact "starts_with" (by decide))
      (by simp [maskFails])]
    refine List.filter_congr (fun r _ => ?_)
    simp [rowMatch, hnd]
  · rw [apply_and_single_active g rex df types _ (hact "ends_with" (by decide))
      (by simp [maskFails])]
    refine List.filter_congr (fun r _ => ?_)
    simp [rowMatch, hnd]

/-- C4 witness: with the regex engine behaving as the case-insensitive
literal search on the metacharacter-free pattern DUP, contains selects the
Dupont row of the demo table; with an engine rejecting the pattern, the
predicate is skipped and the table returned whole. -/
theorem string_operator_semantics_witness :
    "Nom" ∈ (mkDF demoRows).cols
    ∧ (fun p : String => some (fun s =>
          listIsInfixOf (pyLower p).data (pyLower s).data)) "DUP"
        = some (fun s => listIsInfixOf (pyLower "DUP").data (pyLower s).data)
    ∧ (apply_advanced_filters (fun _ => none)
        (fun p => some (fun s => listIsInfixOf (pyLower p).data (pyLower s).data))
        (mkDF demoRows)
        (.withMode "and"
          [{ column := "Nom", operator := "contains", value := some "DUP" }]) []).rows
      = [[("Nom", Value.vstr "Dupont"), ("Ville", Value.vstr "Paris"),
          ("Age", Value.vint 30)]]
    ∧ (apply_advanced_filters (fun _ => none) (fun _ => none) (mkDF demoRows)
        (.withMode "and"
          [{ column := "Nom", operator := "contains", value := some "DUP" }]) []).rows
      = demoRows :=
  ⟨by decide, rfl,
    ((string_operator_semantics (fun _ => none)
      (fun p => some (fun s => listIsInfixOf (pyLower p).data (pyLower s).data))
      (mkDF demoRows) [] "Nom" "DUP"
      (fun s => listIsInfixOf (pyLower "DUP").data (pyLower s).data)
      (by decide) (by decide) (by decide) (by decide)).2.1 rfl
      (fun s => rfl)).trans (by decide),
    ((string_operator_semantics (fun _ => none) (fun _ => none)
      (mkDF demoRows) [] "Nom" "DUP" (fun _ => false)
      (by decide) (by decide) (by decide) (by decide)).2.2.1 rfl).trans
      (by decide)⟩

/-- C3 counterexample: the pattern of the claim on group key Paris / Nord
and date 20240305 yields Paris__Nord_20240305.pdf: the sanitized key holds a
triple underscore and the single-pass replacement of "__" by "_" leaves a
double one, so the claimed output Paris_Nord_20240305.pdf is not produced. -/
theorem filename_collapse_counterexample :
    build_filename "{filter_value}_{date}.pdf" "Paris / Nord" "20240305_120000"
        "20240305" "Table1"
      = "Paris__Nord_20240305.pdf"
    ∧ ("Paris__Nord_20240305.pdf" : String) ≠ "Paris_Nord_20240305.pdf" :=
  ⟨by decide, by decide⟩

/-- C3 (amended): filename generation substitutes the tokens (with the path
characters of the group key replaced by underscores), runs one left-to-right
non-overlapping replacement pass of "__" by "_" and "--" by "-" (so a triple
underscore collapses only to a double one), and always forces a .pdf
extension; the Paris / Nord example on date 2024-03-05 yields
Paris__Nord_20240305.pdf. -/
theorem filename_generation_spec :
    (∀ pattern fv ts d t : String,
        pyEndsWith (build_filename pattern fv ts d t) ".pdf" = true)
    ∧ safe_filter_value "Paris / Nord" = "Paris___Nord"
    ∧ build_filename "{filter_value}_{date}.pdf" "Paris / Nord" "20240305_120000"
        "20240305" "Table1" = "Paris__Nord_20240305.pdf"
    ∧ build_filename "{table_name}-{timestamp}" "x" "T0" "D0" "MyTable"
      = "MyTable-T0.pdf" := by
  refine ⟨?_, by decide, by decide, by decide⟩
  intro pattern fv ts d t
  simp only [build_filename]
  split
  next h => exact h
  next h => exact pyEndsWith_append _

/-- C7 counterexample: 9999999999 lies strictly inside the claimed window
(1e9, 1e10), but exceeds the pandas Timestamp range, so pd.to_datetime
raises OutOfBoundsDatetime and the formatter returns the raw stringified
number, not a DD/MM/YYYY rendering (which would have been 20/11/2286). -/
theorem format_date_value_out_of_bounds_counterexample :
    (1000000000 : Int) < 9999999999 ∧ (9999999999 : Int) < 10000000000
    ∧ format_date_value (fun _ => none) (.vint 9999999999) = "9999999999"
    ∧ formatDDMMYYYY (dateOfUnixSeconds 9999999999) = "20/11/2286"
    ∧ ("9999999999" : String) ≠ "20/11/2286" :=
  ⟨by decide, by decide, by decide, by decide, by decide⟩

/-- C7 (amended): the date formatter is total on the modelled inputs and
never raises: a missing value renders empty; an integer strictly inside the
window (1e9, 1e10) that also fits the pandas Timestamp range (at most
9223372036 seconds, Timestamp.max being 2262-04-11) is read as Unix seconds
and rendered DD/MM/YYYY, while a window integer beyond that range makes the
conversion raise OutOfBoundsDatetime internally and the raw stringified
number is returned; an integer outside the window goes through the bare
(nanosecond) reading under the same int64 bounds, falling back to the raw
number beyond them; a string is handed to the generic parser and rendered
DD/MM/YYYY when it parses, and comes back verbatim when parsing fails. -/
theorem format_date_value_total (gdt : String → Option Date) :
    (format_date_value gdt .vnull = "")
    ∧ (∀ n : Int, 1000000000 < n → n < 10000000000 → n ≤ maxTimestampSeconds →
        format_date_value gdt (.vint n) = formatDDMMYYYY (dateOfUnixSeconds n))
    ∧ (∀ n : Int, 1000000000 < n → n < 10000000000 → maxTimestampSeconds < n →
        format_date_value gdt (.vint n) = toString n)
    ∧ (∀ n : Int, ¬(1000000000 < n ∧ n < 10000000000) →
        minTimestampNanoseconds ≤ n → n ≤ maxTimestampNanoseconds →
        format_date_value gdt (.vint n) = formatDDMMYYYY (dateOfUnixNanoseconds n))
    ∧ (∀ n : Int, ¬(1000000000 < n ∧ n < 10000000000) →
        ¬(minTimestampNanoseconds ≤ n ∧ n ≤ maxTimestampNanoseconds) →
        format_date_value gdt (.vint n) = toString n)
    ∧ (∀ s d, gdt s = some d → format_date_value gdt (.vstr s) = formatDDMMYYYY d)
    ∧ (∀ s, gdt s = none → format_date_value gdt (.vstr s) = s) := by
  refine ⟨rfl, ?_, ?_, ?_, ?_, ?_, ?_⟩
  · intro n h1 h2 h3
    have hmin : minTimestampSeconds ≤ n := by
      simp only [minTimestampSeconds]
      omega
    simp [format_date_value, h1, h2, h3, hmin]
  · intro n h1 h2 h3
    have : ¬(minTimestampSeconds ≤ n ∧ n ≤ maxTimestampSeconds) := by
      intro hc
      exact absurd hc.2 (not_le.mpr h3)
    simp [format_date_value, h1, h2, this]
  · intro n h h1 h2
    simp [format_date_value, h, h1, h2]
  · intro n h hb
    simp [format_date_value, h, hb]
  · intro s d h
    simp [format_date_value, h]
  · intro s h
    simp [format_date_value, h]

/-- C7 witness: 1700000000 lies in the window and within the Timestamp range
and renders as 14/11/2023; 9999999999 lies in the window but beyond the
range and comes back as the raw number; a string no parser accepts comes
back verbatim. -/
theorem format_date_value_total_witness :
    (1000000000 : Int) < 1700000000 ∧ (1700000000 : Int) < 10000000000
    ∧ (1700000000 : Int) ≤ maxTimestampSeconds
    ∧ format_date_value (fun _ => none) (.vint 1700000000) = "14/11/2023"
    ∧ maxTimestampSeconds < (9999999999 : Int)
    ∧ format_date_value (fun _ => none) (.vint 9999999999) = "9999999999"
    ∧ format_date_value (fun _ => none) (.vstr "hello") = "hello" :=
  ⟨by decide, by decide, by decide,
    ((format_date_value_total (fun _ => none)).2.1 1700000000 (by decide)
      (by decide) (by decide)).trans (by decide),
    by decide,
    (format_date_value_total (fun _ => none)).2.2.1 9999999999 (by decide)
      (by decide) (by decide),
    (format_date_value_total (fun _ => none)).2.2.2.2.2.2 "hello" rfl⟩

/-- C8: for a non-empty column selection and positive available width, the
width pipeline assigns each column its content estimate clamped into
[0.6 base, 1.5 base] (base = available / count) and then rescales all the
widths by one common factor; the final widths sum exactly to the available
width (arithmetic taken exactly, over the rationals). -/
theorem column_width_allocation (available : ℚ) (df : DF)
    (columns dateCols : List String)
    (hpos : 0 < available) (hne : columns ≠ []) :
    (∃ c : ℚ, computeColWidths available df columns dateCols
        = (columns.map (fun col =>
            min (max ((available / (columns.length : ℚ)) * (6 / 10))
              ((contentLen df dateCols col : ℚ) * (15 / 100) * cmQ))
              ((available / (columns.length : ℚ)) * (15 / 10)))).map
            (fun w => w * c))
    ∧ (computeColWidths available df columns dateCols).sum = available := by
  set base := available / (columns.length : ℚ) with hbase
  set pre := columns.map (fun col =>
      min (max (base * (6 / 10)) ((contentLen df dateCols col : ℚ) * (15 / 100) * cmQ))
        (base * (15 / 10))) with hpre
  have hbasepos : 0 < base := by
    rw [hbase]
    apply div_pos hpos
    exact_mod_cast List.length_pos.mpr hne
  have hprepos : ∀ x ∈ pre, 0 < x := by
    intro x hx
    rw [hpre] at hx
    obtain ⟨col, _, rfl⟩ := List.mem_map.mp hx
    refine lt_min (lt_of_lt_of_le ?_ (le_max_left _ _)) ?_
    · exact mul_pos hbasepos (by norm_num)
    · exact mul_pos hbasepos (by norm_num)
  have hprene : pre ≠ [] := by
    rw [hpre]
    simpa using hne
  have hpresum : 0 < pre.sum := List.sum_pos pre hprepos hprene
  have hunf : computeColWidths available df columns dateCols
      = (if pre.sum ≠ available then pre.map (fun w => w * (available / pre.sum))
         else pre) := by
    rw [hpre, hbase]
    rfl
  constructor
  · by_cases ht : pre.sum = available
    · refine ⟨1, ?_⟩
      rw [hunf, if_neg (by simp [ht]), hpre]
      simp
    · refine ⟨available / pre.sum, ?_⟩
      rw [hunf, if_pos ht, hpre]
  · rw [hunf]
    by_cases ht : pre.sum = available
    · simp [ht]
    · rw [if_pos ht, sum_map_mul_const, mul_comm,
        div_mul_cancel₀ _ (ne_of_gt hpresum)]

/-- C8 witness: on a concrete two-column selection over the demo table with
100 units available, the allocated widths sum exactly to 100. -/
theorem column_width_allocation_witness :
    (0 : ℚ) < 100 ∧ (["Nom", "Age"] : List String) ≠ []
    ∧ (computeColWidths 100 (mkDF demoRows) ["Nom", "Age"] []).sum = 100 :=
  ⟨by norm_num, by decide,
    (column_width_allocation 100 (mkDF demoRows) ["Nom", "Age"] [] (by norm_num)
      (by decide)).2⟩

/-- C9: the reconciliation lookup returns the first record, in record-set
order, whose filter-column value matches the group key; on a date column the
raw value is converted from Unix seconds and rendered DD/MM/YYYY before the
comparison, so the group key 15/01/2024 matches a record whose raw field
holds the equivalent timestamp 1705276800 instead of failing on a type
mismatch. -/
theorem reconcile_first_matching_record :
    (∀ (isDate : Bool) (col key : String) (records : List GristRecord),
        find_target_record isDate col key records
          = records.find? (recordMatchesKey isDate col key))
    ∧ (∀ (col key : String) (r : GristRecord) (n : Int),
        getField r col = .vint n →
        recordMatchesKey true col key r
          = (formatDDMMYYYY (dateOfUnixSeconds n) == key))
    ∧ find_target_record true "D" "15/01/2024"
        [{ id := 1, fields := [("D", Value.vstr "foo")] },
         { id := 2, fields := [("D", Value.vint 1705276800)] },
         { id := 3, fields := [("D", Value.vint 1705276800)] }]
      = some { id := 2, fields := [("D", Value.vint 1705276800)] } := by
  refine ⟨?_, ?_, by decide⟩
  · intro isDate col key records
    induction records with
    | nil => rfl
    | cons r rest ih =>
      simp only [find_target_record, List.find?]
      cases recordMatchesKey isDate col key r <;> simp [ih]
  · intro col key r n h
    simp [recordMatchesKey, h, toPandasDate]

/-- C9 witness: on the concrete record holding the timestamp 1705276800, the
date-aware comparison against the key 15/01/2024 succeeds. -/
theorem reconcile_first_matching_record_witness :
    getField { id := 2, fields := [("D", Value.vint 1705276800)] } "D"
        = Value.vint 1705276800
    ∧ recordMatchesKey true "D" "15/01/2024"
        { id := 2, fields := [("D", Value.vint 1705276800)] } = true :=
  ⟨rfl, by
    rw [reconcile_first_matching_record.2.1 "D" "15/01/2024"
      { id := 2, fields := [("D", Value.vint 1705276800)] } 1705276800 rfl]
    decide⟩

/-- C6 counterexample: grouping a column holding the integer 1 and the
string "1" yields two distinct groups that share the stringified key "1",
although both raw values stringify identically; so grouping does not
partition the rows by stringified equality. -/
theorem grouping_stringified_equality_counterexample :
    filter_data_by_column [[("V", Value.vint 1)], [("V", Value.vstr "1")]]
        "V" ["V"] false
      = .ok [("1", { cols := ["V"], rows := [[("V", Value.vint 1)]] }),
             ("1", { cols := ["V"], rows := [[("V", Value.vstr "1")]] })]
    ∧ pyStrScalar (Value.vint 1) = pyStrScalar (Value.vstr "1") :=
  ⟨rfl, rfl⟩

/-- C6 (amended): grouping by a non-date column partitions the rows by
equality of the raw grouping value (rows with a null/missing value join no
group; raw values of different types that stringify equally form distinct
groups sharing that string key); groups appear in first-appearance order,
each group keeps the original relative row order and retains exactly the
selected present columns in caller order; the Ville scenario yields exactly
the two groups Paris (2 rows, original order) and Lyon (1 row). -/
theorem grouping_non_date_semantics :
    (filter_data_by_column villeRows "Ville" ["Nom", "Score"] false
      = .ok [("Paris", parisGroup), ("Lyon", lyonGroup)])
    ∧ ∀ (data : List Row) (col : String) (sel : List String)
        (gs : List (String × DF)),
        filter_data_by_column data col sel false = .ok gs →
        ∀ kg ∈ gs, ∃ v : Value,
          v ≠ Value.vnull
          ∧ v ∈ (mkDF data).rows.map (fun r => getCell r col)
          ∧ kg.1 = pyStrScalar v
          ∧ kg.2 = selectGroupColumns (mkDF data).cols sel
              ((mkDF data).rows.filter (fun r => valueEq (getCell r col) v)) := by
  refine ⟨rfl, ?_⟩
  intro data col sel gs hok kg hmem
  by_cases hcol : col ∈ (mkDF data).cols
  · have hcb : (mkDF data).cols.contains col = true := List.elem_eq_true_of_mem hcol
    simp only [filter_data_by_column] at hok
    rw [hcb] at hok
    simp only [Bool.not_true, Bool.false_eq_true, if_false, Except.ok.injEq] at hok
    rw [← hok] at hmem
    obtain ⟨v, hvdedup, rfl⟩ := List.mem_map.mp hmem
    have hvl : v ∈ ((mkDF data).rows.map (fun r => getCell r col)).filter
        (fun v => !(v == Value.vnull)) :=
      mem_of_mem_dedupByAux valueEq v _ [] (by rwa [dedupBy] at hvdedup)
    obtain ⟨hvmem, hvnn⟩ := List.mem_filter.mp hvl
    refine ⟨v, ?_, hvmem, rfl, rfl⟩
    intro hveq
    rw [hveq] at hvnn
    simp at hvnn
  · exfalso
    have hcb : (mkDF data).cols.contains col = false := by simp [hcol]
    simp only [filter_data_by_column] at hok
    rw [hcb] at hok
    simp at hok

/-- C6 witness: the general characterization instantiated at the Ville
scenario and its Paris group. -/
theorem grouping_non_date_semantics_witness :
    ∃ v : Value, v ≠ Value.vnull
      ∧ v ∈ (mkDF villeRows).rows.map (fun r => getCell r "Ville")
      ∧ ("Paris" : String) = pyStrScalar v
      ∧ parisGroup
        = selectGroupColumns (mkDF villeRows).cols ["Nom", "Score"]
            ((mkDF villeRows).rows.filter
              (fun r => valueEq (getCell r "Ville") v)) :=
  grouping_non_date_semantics.2 villeRows "Ville" ["Nom", "Score"]
    [("Paris", parisGroup), ("Lyon", lyonGroup)] rfl
    ("Paris", parisGroup) (by decide)

end Publipostage
